import Mathlib

/-!
Verification of the projector engine (scanner, git probe, list/detail screens)
of the bubbletea-v2-scaffold repository, as a shallow embedding in Lean 4.

Conventions of the embedding:
* Go machine integers that only ever hold small non-negative counts are
  modelled as `Nat` (the Go code never produces negative values for them).
* Go byte strings are modelled as `String` / `List Char`; the repository only
  manipulates them byte-wise (append, slice off the last byte, substring
  search), which coincides with the `List Char` operations used here.
* Fallible external calls (running the git executable, `os.Stat`,
  `os.ReadDir`) are modelled by `Except` / sum-type valued inputs: a function
  under verification receives the outcome of each external call as an
  argument and the embedding reproduces how the Go code combines them.
* The scanner worker pool is order-nondeterministic in Go; it is modelled by
  the sequential reference execution (jobs processed in enumeration order),
  which produces the same multiset of results.
-/

namespace Projector

/-- `StatusType` from internal/projector/project.go (constants declared with
iota in the order clean, dirty, ahead, behind, diverged, noRemote; the zero
value is `StatusClean`). -/
inductive StatusType where
  | StatusClean
  | StatusDirty
  | StatusAhead
  | StatusBehind
  | StatusDiverged
  | StatusNoRemote
  deriving DecidableEq, Repr

/-- `GitStatus` from internal/projector/project.go. `lastCommitTime` is the
commit time in epoch seconds (`time.Time` zero value modelled as `0`). -/
structure GitStatus where
  branch : String
  remote : String
  uncommitted : Nat
  unpushed : Nat
  unpulled : Nat
  lastCommitMsg : String
  lastCommitTime : Nat
  lastCommitAuthor : String
  status : StatusType
  deriving DecidableEq, Repr

/-- The zero value of the Go struct `GitStatus` (`var status GitStatus`). -/
def zeroGitStatus : GitStatus :=
  { branch := ""
    remote := ""
    uncommitted := 0
    unpushed := 0
    unpulled := 0
    lastCommitMsg := ""
    lastCommitTime := 0
    lastCommitAuthor := ""
    status := .StatusClean }

/-- `Project` from internal/projector/project.go. -/
structure Project where
  name : String
  path : String
  language : String
  size : Nat
  lastModified : Nat
  git : GitStatus
  deriving DecidableEq, Repr

/-- The outcomes of the six git subprocess queries a single `GetStatus` call
performs (getBranch, getRemote, getUncommitted, getUnpushed, getUnpulled,
getLastCommit in internal/projector/git.go). Each query either fails
(`Except.error` with the error text) or yields its parsed result. -/
structure GitProbes where
  getBranch : Except String String
  getRemote : Except String String
  getUncommitted : Except String Nat
  getUnpushed : Except String Nat
  getUnpulled : Except String Nat
  getLastCommit : Except String (String × String × Nat)

/-- `GitClient.determineStatus` from internal/projector/git.go lines 152-166. -/
def determineStatus (uncommitted unpushed unpulled : Nat) : StatusType :=
  if uncommitted > 0 then .StatusDirty
  else if unpushed > 0 ∧ unpulled > 0 then .StatusDiverged
  else if unpushed > 0 then .StatusAhead
  else if unpulled > 0 then .StatusBehind
  else .StatusClean

/-- `GitClient.GetStatus` from internal/projector/git.go lines 29-84, as a
function of the probe outcomes. The Go code starts from the zero `GitStatus`,
returns early with an error if the branch query fails, and otherwise fills the
fields in order, keeping the zero value for every field whose query failed.
The second component models the returned `error` (`none` = nil). -/
def GetStatus (p : GitProbes) : GitStatus × Option String :=
  match p.getBranch with
  | .error e => (zeroGitStatus, some ("getting branch: " ++ e))
  | .ok branch =>
      let remote := match p.getRemote with
        | .error _ => ""
        | .ok r => r
      let statusAfterRemote : StatusType := match p.getRemote with
        | .error _ => .StatusNoRemote
        | .ok _ => .StatusClean
      let uncommitted := match p.getUncommitted with
        | .error _ => 0
        | .ok n => n
      let unpushed := if remote ≠ "" then
          (match p.getUnpushed with
           | .error _ => 0
           | .ok n => n)
        else 0
      let unpulled := if remote ≠ "" then
          (match p.getUnpulled with
           | .error _ => 0
           | .ok n => n)
        else 0
      let finalStatus : StatusType :=
        if remote ≠ "" then determineStatus uncommitted unpushed unpulled
        else if uncommitted > 0 then .StatusDirty
        else statusAfterRemote
      let lastCommit := match p.getLastCommit with
        | .error _ => ("", "", 0)
        | .ok mat => mat
      ({ branch := branch
         remote := remote
         uncommitted := uncommitted
         unpushed := unpushed
         unpulled := unpulled
         lastCommitMsg := lastCommit.1
         lastCommitAuthor := lastCommit.2.1
         lastCommitTime := lastCommit.2.2
         status := finalStatus }, none)

/-- Whether the upstream query succeeded ("upstream present" in the words of
the specification; the query exits non-zero exactly when `HEAD` has no
upstream tracking reference). -/
def upstreamPresent (p : GitProbes) : Bool :=
  match p.getRemote with
  | .error _ => false
  | .ok _ => true

/-- The StatusKind derivation table transcribed from the specification
(section 3), evaluated in order with first match winning. This definition
follows the SPEC wording and is compared against `GetStatus` above. -/
def specStatusTable (upstream : Bool) (uncommitted unpushed unpulled : Nat) :
    StatusType :=
  if upstream = false then
    (if uncommitted = 0 then .StatusNoRemote else .StatusDirty)
  else if uncommitted > 0 then .StatusDirty
  else if unpushed > 0 ∧ unpulled > 0 then .StatusDiverged
  else if unpushed > 0 then .StatusAhead
  else if unpulled > 0 then .StatusBehind
  else .StatusClean

/-! ## Scanner (internal/projector/scanner.go) -/

/-- Outcome of the `os.Stat(filepath.Join(dir, ".git"))` call in
`Scanner.scanProject`: the path does not exist, the stat itself failed with
some other error, or it succeeded and reports whether the entry is a
directory. -/
inductive StatResult where
  | notExist
  | statFailed (e : String)
  | entry (isDir : Bool)
  deriving DecidableEq, Repr

/-- One entry of the `os.ReadDir(s.rootDir)` listing used by `Scanner.Scan`. -/
structure DirEntry where
  name : String
  isDir : Bool
  deriving DecidableEq, Repr

/-- `filepath.Join(root, name)` as used by the scanner (both arguments are
plain cleaned path segments there). -/
def joinPath (root name : String) : String :=
  root ++ "/" ++ name

/-- `filepath.Base` for slash-separated paths: strip trailing slashes and
keep the last element ("." for the empty path, "/" when everything is a
slash). -/
def baseName (p : String) : String :=
  if p = "" then "."
  else
    let stripped := p.data.reverse.dropWhile (fun c => c = '/')
    if stripped.isEmpty then "/"
    else String.mk ((stripped.takeWhile (fun c => c ≠ '/')).reverse)

/-- `Scanner.scanProject` from internal/projector/scanner.go lines 89-114, as
a function of the `.git` stat outcome and of the probe result
(`GitClient.GetStatus` value and error). A `.ok none` result is a silent skip
(not a repository); an `.error` result is sent to the error channel; the probe
error itself is only logged and the project keeps the returned status. -/
def scanProject (stat : StatResult) (gitRes : GitStatus × Option String)
    (dir : String) : Except String (Option Project) :=
  match stat with
  | .notExist => .ok none
  | .statFailed e => .error e
  | .entry isDir =>
      if !isDir then .ok none
      else .ok (some { name := baseName dir
                       path := dir
                       language := ""
                       size := 0
                       lastModified := 0
                       git := gitRes.1 })

/-- `Scanner.Scan` from internal/projector/scanner.go lines 31-73, as a
function of the root listing and of the per-directory stat and probe
outcomes. A failed `os.ReadDir` returns `(nil, err)`, modelled as
`Except.error`; otherwise the worker pool probes every directory entry and
collects the non-skipped projects, while per-directory errors only go to the
logged error channel. -/
def Scan (rootDir : String) (readDir : Except String (List DirEntry))
    (stat : String → StatResult) (git : String → GitStatus × Option String) :
    Except String (List Project) :=
  match readDir with
  | .error e => .error e
  | .ok entries =>
      let dirs := (entries.filter (fun e => e.isDir)).map
        (fun e => joinPath rootDir e.name)
      .ok (dirs.filterMap (fun d =>
        match scanProject (stat d) (git d) d with
        | .error _ => none
        | .ok none => none
        | .ok (some pr) => some pr))

/-! ## Row rendering (internal/ui/screens ProjectsListScreen helpers) -/

/-- The styled-text elements a screen draws with. In the Go code these are
`lipgloss` styles owned by the theme adapter (an external collaborator per
the specification); each is modelled as an opaque `String → String`
transformer. `errorStyle`/`statusStyle` stand for the Go fields
`Theme.Error`/`Theme.Status`. -/
structure Theme where
  title : String → String
  subtle : String → String
  success : String → String
  warning : String → String
  errorStyle : String → String
  statusStyle : String → String
  app : String → String
  footerStyle : String → String

/-- `formatGitStatus` from the projects list screen: a status glyph followed
by the nonzero counts, space-joined. -/
def formatGitStatus (g : GitStatus) (t : Theme) : String :=
  let glyph : List String :=
    match g.status with
    | .StatusClean => [t.success "✓"]
    | .StatusDirty => [t.warning "●"]
    | .StatusAhead => [t.statusStyle "↑"]
    | .StatusBehind => [t.statusStyle "↓"]
    | .StatusDiverged => [t.errorStyle "⚠"]
    | .StatusNoRemote => [t.subtle "○"]
  let parts := glyph
    ++ (if g.uncommitted > 0 then [t.warning ("±" ++ toString g.uncommitted)] else [])
    ++ (if g.unpushed > 0 then [t.statusStyle ("↑" ++ toString g.unpushed)] else [])
    ++ (if g.unpulled > 0 then [t.statusStyle ("↓" ++ toString g.unpulled)] else [])
  String.intercalate " " parts

/-- `formatTimeAgo` from the projects list screen, for an elapsed duration of
`d` seconds (Go computes `time.Since(t)` and truncates to integral units). -/
def formatTimeAgo (d : Nat) : String :=
  if d < 60 then "just now"
  else if d < 3600 then
    (if d / 60 = 1 then "1 min ago" else toString (d / 60) ++ " mins ago")
  else if d < 86400 then
    (if d / 3600 = 1 then "1 hour ago" else toString (d / 3600) ++ " hours ago")
  else if d < 604800 then
    (if d / 86400 = 1 then "1 day ago" else toString (d / 86400) ++ " days ago")
  else
    (if d / 604800 = 1 then "1 week ago" else toString (d / 604800) ++ " weeks ago")

/-- The commit-subject truncation inlined in `renderProjectLine`:
`if len(msg) > 30 { msg = msg[:27] + "..." }`. -/
def truncateSubject (msg : String) : String :=
  if msg.data.length > 30 then String.mk (msg.data.take 27 ++ ('.' :: '.' :: '.' :: []))
  else msg

/-- The `parts` slice assembled by `renderProjectLine` (cursor marker, name,
branch, git status, quoted truncated commit subject, relative age), with
segments of empty/zero fields omitted. `now` is the current clock in epoch
seconds (Go calls `time.Since`). -/
def projectLineParts (t : Theme) (now : Nat) (p : Project) (selected : Bool) :
    List String :=
  (if selected then [t.statusStyle "▸"] else [" "])
  ++ [p.name]
  ++ (if p.git.branch ≠ "" then [t.subtle ("[" ++ p.git.branch ++ "]")] else [])
  ++ (if formatGitStatus p.git t ≠ "" then [formatGitStatus p.git t] else [])
  ++ (if p.git.lastCommitMsg ≠ "" then
        [t.subtle ("\"" ++ truncateSubject p.git.lastCommitMsg ++ "\"")]
      else [])
  ++ (if p.git.lastCommitTime ≠ 0 then
        [t.subtle (formatTimeAgo (now - p.git.lastCommitTime))]
      else [])

/-- `ProjectsListScreen.renderProjectLine`: the parts joined with single
spaces. -/
def renderProjectLine (t : Theme) (now : Nat) (p : Project) (selected : Bool) :
    String :=
  String.intercalate " " (projectLineParts t now p selected)

/-! ## Project list and detail screens (internal/ui/screens) -/

/-- The BubbleTea messages the two screens handle: window resize, a key press
(identified by its `msg.String()` value), and the scan completion message
`ScanCompleteMsg{projects, err}` (here `scanErr = true` models a non-nil
error). -/
inductive Msg where
  | windowSize (w h : Nat)
  | keyPress (k : String)
  | scanComplete (projects : List Project) (scanErr : Bool)
  deriving DecidableEq, Repr

/-- The commands the two screens emit: the asynchronous scan, pushing a
detail screen for a project, and popping the current screen. -/
inductive Cmd where
  | scanCmd
  | push (p : Project)
  | pop
  deriving DecidableEq, Repr

/-- `ProjectsListScreen` state. `width`, `height`, `isDark`, `appName` and
`showAll` (the `Help.ShowAll` flag) come from the embedded `ScreenBase`;
`hasScanner` models `scanner != nil`. -/
structure ProjectsListScreen where
  width : Nat
  height : Nat
  isDark : Bool
  appName : String
  showAll : Bool
  projects : List Project
  selectedIdx : Nat
  scanning : Bool
  ready : Bool
  projectsDir : String
  hasScanner : Bool
  filterText : List Char
  filtering : Bool
  deriving DecidableEq, Repr

/-- `NewProjectsListScreen`: only the base and the projects directory are
set; every other field keeps its zero value. -/
def NewProjectsListScreen (projectsDir : String) (isDark : Bool)
    (appName : String) : ProjectsListScreen :=
  { width := 0
    height := 0
    isDark := isDark
    appName := appName
    showAll := false
    projects := []
    selectedIdx := 0
    scanning := false
    ready := false
    projectsDir := projectsDir
    hasScanner := false
    filterText := []
    filtering := false }

/-- `ProjectsListScreen.SetScanner` (a non-nil scanner is installed). -/
def ProjectsListScreen.SetScanner (s : ProjectsListScreen) :
    ProjectsListScreen :=
  { s with hasScanner := true }

/-- `ProjectsListScreen.Init`: with a scanner installed, mark scanning and
dispatch the scan command. -/
def ProjectsListScreen.Init (s : ProjectsListScreen) :
    ProjectsListScreen × Option Cmd :=
  if s.hasScanner then ({ s with scanning := true }, some .scanCmd)
  else (s, none)

/-- `strings.Contains(hay, need)` on byte strings: some tail of `hay` starts
with `need`. -/
def listContainsSub : List Char → List Char → Bool
  | [], need => need.isEmpty
  | h :: t, need => need.isPrefixOf (h :: t) || listContainsSub t need

/-- `ProjectsListScreen.filteredProjects`: the whole list when the filter is
empty, otherwise the case-insensitive substring filter on project names
(`strings.Contains(strings.ToLower(name), strings.ToLower(filterText))`). -/
def ProjectsListScreen.filteredProjects (s : ProjectsListScreen) :
    List Project :=
  if s.filterText = [] then s.projects
  else s.projects.filter (fun p =>
    listContainsSub (p.name.data.map Char.toLower)
      (s.filterText.map Char.toLower))

/-- `ProjectsListScreen.handleFilterInput` (scanner.go lines 421-438). -/
def ProjectsListScreen.handleFilterInput (s : ProjectsListScreen)
    (k : String) : ProjectsListScreen × Option Cmd :=
  if k = "esc" then ({ s with filtering := false, filterText := [] }, none)
  else if k = "enter" then ({ s with filtering := false }, none)
  else if k = "backspace" then
    (if s.filterText.length > 0 then
       { s with filterText := s.filterText.take (s.filterText.length - 1) }
     else s, none)
  else if k.length = 1 then ({ s with filterText := s.filterText ++ k.data }, none)
  else (s, none)

/-- `ProjectsListScreen.handleNormalInput` (scanner.go lines 440-471). -/
def ProjectsListScreen.handleNormalInput (s : ProjectsListScreen)
    (k : String) : ProjectsListScreen × Option Cmd :=
  let filtered := s.filteredProjects
  if k = "up" ∨ k = "k" then
    (if s.selectedIdx > 0 then { s with selectedIdx := s.selectedIdx - 1 }
     else s, none)
  else if k = "down" ∨ k = "j" then
    (if s.selectedIdx < filtered.length - 1 then
       { s with selectedIdx := s.selectedIdx + 1 }
     else s, none)
  else if k = "r" then
    (if !s.scanning && s.hasScanner then ({ s with scanning := true }, some .scanCmd)
     else (s, none))
  else if k = "/" then ({ s with filtering := true, filterText := [] }, none)
  else if k = "enter" then
    (match filtered.get? s.selectedIdx with
     | some p => (s, some (.push p))
     | none => (s, none))
  else if k = "esc" then (s, some .pop)
  else if k = "?" then ({ s with showAll := !s.showAll }, none)
  else (s, none)

/-- `ProjectsListScreen.Update` (scanner.go lines 394-419). -/
def ProjectsListScreen.Update (s : ProjectsListScreen) (m : Msg) :
    ProjectsListScreen × Option Cmd :=
  match m with
  | .windowSize w h => ({ s with width := w, height := h, ready := true }, none)
  | .keyPress k =>
      if s.filtering then s.handleFilterInput k else s.handleNormalInput k
  | .scanComplete ps scanErr =>
      let s1 := { s with scanning := false,
                         projects := if scanErr then [] else ps }
      (if s1.selectedIdx ≥ s1.filteredProjects.length then
         { s1 with selectedIdx := max 0 (s1.filteredProjects.length - 1) }
       else s1, none)

/-- The layout collaborators a `View` call draws with, beyond the theme:
the ambient clock, the `ScreenBase.HeaderView` output, the
`ScreenBase.RenderHelp` output, and `lipgloss.JoinVertical(lipgloss.Left, …)`
(all produced outside the code under verification). -/
structure RenderCtx where
  theme : Theme
  now : Nat
  headerView : String
  renderHelp : String
  joinVertical : List String → String

/-- `ProjectsListScreen.View` (scanner.go lines 486-543): the literal
"Loading..." until the first window-size message has set `ready`, otherwise
header, optional filter line, project rows (or placeholder), footer and help
bar joined vertically inside the app frame. -/
def ProjectsListScreen.View (ctx : RenderCtx) (s : ProjectsListScreen) :
    String :=
  if !s.ready then "Loading..."
  else
    let header := if s.scanning then
        ctx.theme.title (s.appName ++ " (scanning...)")
      else ctx.headerView
    let filtered := s.filteredProjects
    let filterLine :=
      if s.filtering then
        ctx.theme.subtle "Filter: " ++ String.mk s.filterText ++ "█\n\n"
      else if s.filterText ≠ [] then
        ctx.theme.subtle "Filter: " ++ String.mk s.filterText ++ "\n\n"
      else ""
    let rows :=
      if filtered.length = 0 then
        (if s.scanning then ctx.theme.subtle "Scanning for projects..."
         else ctx.theme.subtle "No projects found.")
      else
        String.join (filtered.enum.map (fun ip =>
          renderProjectLine ctx.theme ctx.now ip.2 (ip.1 = s.selectedIdx)
            ++ "\n"))
    let footer := ctx.theme.footerStyle
      (toString filtered.length ++ " project(s)")
    ctx.theme.app (ctx.joinVertical
      [header, filterLine ++ rows, footer, ctx.renderHelp])

/-- `ProjectDetailScreen` state: the captured project plus the base fields it
actually uses. -/
structure ProjectDetailScreen where
  width : Nat
  height : Nat
  isDark : Bool
  appName : String
  showAll : Bool
  project : Project
  ready : Bool
  deriving DecidableEq, Repr

/-- `NewProjectDetailScreen`. -/
def NewProjectDetailScreen (project : Project) (isDark : Bool)
    (appName : String) : ProjectDetailScreen :=
  { width := 0
    height := 0
    isDark := isDark
    appName := appName
    showAll := false
    project := project
    ready := false }

/-- `ProjectDetailScreen.Update` (scanner.go lines 669-684). -/
def ProjectDetailScreen.Update (s : ProjectDetailScreen) (m : Msg) :
    ProjectDetailScreen × Option Cmd :=
  match m with
  | .windowSize w h => ({ s with width := w, height := h, ready := true }, none)
  | .keyPress k =>
      if k = "esc" ∨ k = "q" then (s, some .pop)
      else if k = "?" then ({ s with showAll := !s.showAll }, none)
      else (s, none)
  | .scanComplete _ _ => (s, none)

/-- The `lines` block assembled by `ProjectDetailScreen.View`. -/
def detailLines (t : Theme) (p : Project) : List String :=
  [t.title p.name, "", t.subtle "Path: " ++ p.path]
  ++ (if p.language ≠ "" then [t.subtle "Language: " ++ p.language] else [])
  ++ ["", t.statusStyle "Git Status:", "  Branch: " ++ p.git.branch]
  ++ (if p.git.remote ≠ "" then ["  Remote: " ++ p.git.remote]
      else ["  Remote: (none)"])
  ++ (if p.git.uncommitted > 0 then
        ["  Uncommitted: " ++ toString p.git.uncommitted ++ " file(s)"]
      else [])
  ++ (if p.git.unpushed > 0 then
        ["  Unpushed: " ++ toString p.git.unpushed ++ " commit(s)"]
      else [])
  ++ (if p.git.unpulled > 0 then
        ["  Unpulled: " ++ toString p.git.unpulled ++ " commit(s)"]
      else [])
  ++ (if p.git.lastCommitMsg ≠ "" then
        ["  Last commit: \"" ++ p.git.lastCommitMsg ++ "\""]
        ++ (if p.git.lastCommitAuthor ≠ "" then
              ["  Author: " ++ p.git.lastCommitAuthor]
            else [])
      else [])

/-- `ProjectDetailScreen.View` (scanner.go lines 686-738). -/
def ProjectDetailScreen.View (ctx : RenderCtx) (s : ProjectDetailScreen) :
    String :=
  if !s.ready then "Loading..."
  else
    ctx.theme.app (ctx.joinVertical
      [ctx.headerView,
       String.intercalate "\n" (detailLines ctx.theme s.project),
       ctx.renderHelp])

/-- Folding a list of key messages through `Update`, keeping the screen. -/
def applyKeys (s : ProjectsListScreen) (ks : List String) :
    ProjectsListScreen :=
  ks.foldl (fun t k => (t.Update (.keyPress k)).1) s

/-! ## Theorems -/

/-- C1: whenever the probe returns a `GitStatus` (i.e. the branch query
succeeded), the stored `status` equals the specification's derivation table
evaluated in order with first match winning: upstream absent gives `noRemote`
when `uncommitted == 0` and `dirty` otherwise; then `uncommitted > 0` gives
`dirty`; then `unpushed > 0 ∧ unpulled > 0` gives `diverged`; then
`unpushed > 0` gives `ahead`; then `unpulled > 0` gives `behind`; otherwise
`clean`. Exactly one kind applies since the table is a total first-match
cascade. -/
theorem status_matches_derivation_table (p : GitProbes) (b : String)
    (hb : p.getBranch = .ok b) :
    (GetStatus p).1.status =
      specStatusTable (upstreamPresent p) (GetStatus p).1.uncommitted
        (GetStatus p).1.unpushed (GetStatus p).1.unpulled := by
  rcases hr : p.getRemote with er | r
  · rcases hu : p.getUncommitted with eu | u
    · simp [GetStatus, hb, hr, hu, upstreamPresent, specStatusTable]
    · rcases Nat.eq_zero_or_pos u with h0 | h0
      · subst h0
        simp [GetStatus, hb, hr, hu, upstreamPresent, specStatusTable]
      · simp [GetStatus, hb, hr, hu, upstreamPresent, specStatusTable, h0,
          Nat.pos_iff_ne_zero.mp h0]
  · by_cases hre : r = ""
    · subst hre
      rcases hu : p.getUncommitted with eu | u
      · simp [GetStatus, hb, hr, hu, upstreamPresent, specStatusTable,
          determineStatus]
      · rcases Nat.eq_zero_or_pos u with h0 | h0
        · subst h0
          simp [GetStatus, hb, hr, hu, upstreamPresent, specStatusTable,
            determineStatus]
        · simp [GetStatus, hb, hr, hu, upstreamPresent, specStatusTable,
            determineStatus, h0, Nat.pos_iff_ne_zero.mp h0]
    · simp only [GetStatus, hb, hr, upstreamPresent, specStatusTable,
        determineStatus]
      simp [hre]

/-- Witness for `status_matches_derivation_table` at a concrete probe result
(branch ok, upstream absent, one uncommitted entry). -/
theorem status_matches_derivation_table_witness :
    (GetStatus { getBranch := .ok "main", getRemote := .error "no upstream",
                 getUncommitted := .ok 1, getUnpushed := .ok 0,
                 getUnpulled := .ok 0, getLastCommit := .error "empty" }).1.status =
      specStatusTable
        (upstreamPresent
          { getBranch := .ok "main", getRemote := .error "no upstream",
            getUncommitted := .ok 1, getUnpushed := .ok 0,
            getUnpulled := .ok 0, getLastCommit := .error "empty" })
        (GetStatus { getBranch := .ok "main", getRemote := .error "no upstream",
                     getUncommitted := .ok 1, getUnpushed := .ok 0,
                     getUnpulled := .ok 0, getLastCommit := .error "empty" }).1.uncommitted
        (GetStatus { getBranch := .ok "main", getRemote := .error "no upstream",
                     getUncommitted := .ok 1, getUnpushed := .ok 0,
                     getUnpulled := .ok 0, getLastCommit := .error "empty" }).1.unpushed
        (GetStatus { getBranch := .ok "main", getRemote := .error "no upstream",
                     getUncommitted := .ok 1, getUnpushed := .ok 0,
                     getUnpulled := .ok 0, getLastCommit := .error "empty" }).1.unpulled :=
  status_matches_derivation_table _ "main" rfl

/-- C2: a probed `GitStatus` with an empty `remote` always carries
`unpushed = 0` and `unpulled = 0` (the probe skips both queries without an
upstream, so the counts keep their zero values). -/
theorem no_remote_zero_counts (p : GitProbes)
    (h : (GetStatus p).1.remote = "") :
    (GetStatus p).1.unpushed = 0 ∧ (GetStatus p).1.unpulled = 0 := by
  rcases hb : p.getBranch with e | b
  · simp [GetStatus, hb, zeroGitStatus]
  · rcases hr : p.getRemote with er | r
    · simp [GetStatus, hb, hr]
    · simp only [GetStatus, hb, hr] at h ⊢
      simp [h]

/-- Witness for `no_remote_zero_counts` at a concrete probe result whose
unpushed/unpulled queries would have reported 7. -/
theorem no_remote_zero_counts_witness :
    (GetStatus { getBranch := .ok "main", getRemote := .error "no upstream",
                 getUncommitted := .ok 0, getUnpushed := .ok 7,
                 getUnpulled := .ok 7, getLastCommit := .error "empty" }).1.unpushed = 0 ∧
    (GetStatus { getBranch := .ok "main", getRemote := .error "no upstream",
                 getUncommitted := .ok 0, getUnpushed := .ok 7,
                 getUnpulled := .ok 7, getLastCommit := .error "empty" }).1.unpulled = 0 :=
  no_remote_zero_counts _ (by decide)

/-- C10: when the branch query fails, `GetStatus` returns the zero
`GitStatus` together with a non-nil error; the zero status kind is
`StatusClean` (the zero `StatusType`), not `StatusNoRemote`; the scanner
still emits the project carrying that zero-valued status, and the row
renderer draws the zero status as the clean glyph. -/
theorem malformed_repo_reported_clean (p : GitProbes) (e dir : String)
    (t : Theme) (hb : p.getBranch = .error e) :
    GetStatus p = (zeroGitStatus, some ("getting branch: " ++ e)) ∧
    zeroGitStatus.status = .StatusClean ∧
    StatusType.StatusClean ≠ StatusType.StatusNoRemote ∧
    scanProject (.entry true) (GetStatus p) dir =
      .ok (some { name := baseName dir, path := dir, language := "",
                  size := 0, lastModified := 0, git := zeroGitStatus }) ∧
    formatGitStatus zeroGitStatus t = t.success "✓" := by
  have h1 : GetStatus p = (zeroGitStatus, some ("getting branch: " ++ e)) := by
    simp [GetStatus, hb]
  refine ⟨h1, rfl, by decide, ?_, ?_⟩
  · rw [h1]; simp [scanProject]
  · rfl

/-- Witness for `malformed_repo_reported_clean` at a concrete failing branch
query. -/
theorem malformed_repo_reported_clean_witness :
    GetStatus { getBranch := .error "fatal", getRemote := .ok "origin/main",
                getUncommitted := .ok 3, getUnpushed := .ok 1,
                getUnpulled := .ok 1, getLastCommit := .error "empty" } =
      (zeroGitStatus, some ("getting branch: " ++ "fatal")) ∧
    zeroGitStatus.status = .StatusClean ∧
    StatusType.StatusClean ≠ StatusType.StatusNoRemote ∧
    scanProject (.entry true)
        (GetStatus { getBranch := .error "fatal", getRemote := .ok "origin/main",
                     getUncommitted := .ok 3, getUnpushed := .ok 1,
                     getUnpulled := .ok 1, getLastCommit := .error "empty" })
        "/r/broken" =
      .ok (some { name := baseName "/r/broken", path := "/r/broken",
                  language := "", size := 0, lastModified := 0,
                  git := zeroGitStatus }) ∧
    formatGitStatus zeroGitStatus
        { title := id, subtle := id, success := id, warning := id,
          errorStyle := id, statusStyle := id, app := id, footerStyle := id } =
      Theme.success
        { title := id, subtle := id, success := id, warning := id,
          errorStyle := id, statusStyle := id, app := id, footerStyle := id }
        "✓" :=
  malformed_repo_reported_clean _ "fatal" "/r/broken" _ rfl

/-- C4: in every project-list row with a non-empty last-commit subject, the
row contains the subject wrapped in double quotes in subtle style; the
rendered subject is at most 30 characters, is unchanged when the original is
at most 30 characters, and otherwise is the first 27 characters with a `...`
suffix at the cut point. -/
theorem commit_subject_truncated (t : Theme) (now : Nat) (p : Project)
    (sel : Bool) (h : p.git.lastCommitMsg ≠ "") :
    t.subtle ("\"" ++ truncateSubject p.git.lastCommitMsg ++ "\"")
        ∈ projectLineParts t now p sel ∧
    (truncateSubject p.git.lastCommitMsg).data.length ≤ 30 ∧
    (p.git.lastCommitMsg.data.length ≤ 30 →
      truncateSubject p.git.lastCommitMsg = p.git.lastCommitMsg) ∧
    (p.git.lastCommitMsg.data.length > 30 →
      truncateSubject p.git.lastCommitMsg =
        String.mk (p.git.lastCommitMsg.data.take 27
          ++ ('.' :: '.' :: '.' :: []))) := by
  refine ⟨?_, ?_, ?_, ?_⟩
  · simp [projectLineParts, h]
  · rw [truncateSubject]
    split
    · simp [List.length_take]
    · omega
  · intro hle
    rw [truncateSubject, if_neg (by omega)]
  · intro hgt
    rw [truncateSubject, if_pos hgt]

/-- Witness for `commit_subject_truncated` on a concrete 36-character
subject rendered with the identity theme. -/
theorem commit_subject_truncated_witness :
    Theme.subtle
        { title := id, subtle := id, success := id, warning := id,
          errorStyle := id, statusStyle := id, app := id, footerStyle := id }
        ("\"" ++ truncateSubject "abcdefghijklmnopqrstuvwxyz0123456789" ++ "\"")
        ∈ projectLineParts
          { title := id, subtle := id, success := id, warning := id,
            errorStyle := id, statusStyle := id, app := id, footerStyle := id }
          0
          { name := "alpha", path := "/r/alpha", language := "", size := 0,
            lastModified := 0,
            git := { zeroGitStatus with
                       lastCommitMsg := "abcdefghijklmnopqrstuvwxyz0123456789" } }
          false ∧
    (truncateSubject "abcdefghijklmnopqrstuvwxyz0123456789").data.length ≤ 30 ∧
    ((String.data "abcdefghijklmnopqrstuvwxyz0123456789").length ≤ 30 →
      truncateSubject "abcdefghijklmnopqrstuvwxyz0123456789" =
        "abcdefghijklmnopqrstuvwxyz0123456789") ∧
    ((String.data "abcdefghijklmnopqrstuvwxyz0123456789").length > 30 →
      truncateSubject "abcdefghijklmnopqrstuvwxyz0123456789" =
        String.mk ((String.data "abcdefghijklmnopqrstuvwxyz0123456789").take 27
          ++ ('.' :: '.' :: '.' :: []))) :=
  commit_subject_truncated _ 0 _ false (by decide)

/-- C5: a failure to enumerate the root directory makes `Scan` return the
scan error (with the nil project list) without consulting any stat or probe
outcome, while a successful enumeration always yields an `ok` project list,
whatever the individual probe outcomes are. -/
theorem scan_root_error_behaviour (rootDir e : String)
    (st st2 : String → StatResult)
    (git git2 : String → GitStatus × Option String) (l : List DirEntry) :
    Scan rootDir (.error e) st git = .error e ∧
    Scan rootDir (.error e) st git = Scan rootDir (.error e) st2 git2 ∧
    ∃ ps, Scan rootDir (.ok l) st git = .ok ps := by
  refine ⟨rfl, rfl, ⟨_, rfl⟩⟩

/-- C6: a directory whose `.git` child exists and is a directory is always
emitted by the worker — the probe result (including a failed probe) is
attached, never dropped. A directory is silently skipped exactly when `.git`
does not exist or is not a directory (e.g. a regular file named `.git`).
Moreover, when the upstream probe failed and the uncommitted probe failed
(leaving its zero value), the attached status is `noRemote` with zero
unpushed/unpulled/uncommitted counts. -/
theorem repo_never_dropped (stat : StatResult) (g : GitStatus × Option String)
    (dir : String) (p : GitProbes) (b er eu : String)
    (hb : p.getBranch = .ok b) (hr : p.getRemote = .error er)
    (hu : p.getUncommitted = .error eu) :
    (stat = .entry true →
      scanProject stat g dir =
        .ok (some { name := baseName dir, path := dir, language := "",
                    size := 0, lastModified := 0, git := g.1 })) ∧
    (scanProject stat g dir = .ok none ↔
      stat = .notExist ∨ stat = .entry false) ∧
    (GetStatus p).1.status = .StatusNoRemote ∧
    (GetStatus p).1.uncommitted = 0 ∧
    (GetStatus p).1.unpushed = 0 ∧
    (GetStatus p).1.unpulled = 0 := by
  refine ⟨?_, ?_, ?_⟩
  · rintro rfl
    simp [scanProject]
  · constructor
    · intro h
      rcases stat with _ | e | isDir
      · exact Or.inl rfl
      · simp [scanProject] at h
      · cases isDir
        · exact Or.inr rfl
        · simp [scanProject] at h
    · rintro (rfl | rfl) <;> simp [scanProject]
  · simp [GetStatus, hb, hr, hu]

/-- Witness for `repo_never_dropped`: a directory with a real `.git`
directory whose probe failed entirely except for the branch query. -/
theorem repo_never_dropped_witness :
    ((StatResult.entry true) = .entry true →
      scanProject (.entry true)
          (GetStatus { getBranch := .ok "main", getRemote := .error "no upstream",
                       getUncommitted := .error "status failed",
                       getUnpushed := .ok 4, getUnpulled := .ok 4,
                       getLastCommit := .error "empty" })
          "/r/alpha" =
        .ok (some { name := baseName "/r/alpha", path := "/r/alpha",
                    language := "", size := 0, lastModified := 0,
                    git := (GetStatus { getBranch := .ok "main",
                                        getRemote := .error "no upstream",
                                        getUncommitted := .error "status failed",
                                        getUnpushed := .ok 4, getUnpulled := .ok 4,
                                        getLastCommit := .error "empty" }).1 })) ∧
    (scanProject (.entry true)
        (GetStatus { getBranch := .ok "main", getRemote := .error "no upstream",
                     getUncommitted := .error "status failed",
                     getUnpushed := .ok 4, getUnpulled := .ok 4,
                     getLastCommit := .error "empty" })
        "/r/alpha" = .ok none ↔
      (StatResult.entry true) = .notExist ∨
        (StatResult.entry true) = .entry false) ∧
    (GetStatus { getBranch := .ok "main", getRemote := .error "no upstream",
                 getUncommitted := .error "status failed", getUnpushed := .ok 4,
                 getUnpulled := .ok 4,
                 getLastCommit := .error "empty" }).1.status = .StatusNoRemote ∧
    (GetStatus { getBranch := .ok "main", getRemote := .error "no upstream",
                 getUncommitted := .error "status failed", getUnpushed := .ok 4,
                 getUnpulled := .ok 4,
                 getLastCommit := .error "empty" }).1.uncommitted = 0 ∧
    (GetStatus { getBranch := .ok "main", getRemote := .error "no upstream",
                 getUncommitted := .error "status failed", getUnpushed := .ok 4,
                 getUnpulled := .ok 4,
                 getLastCommit := .error "empty" }).1.unpushed = 0 ∧
    (GetStatus { getBranch := .ok "main", getRemote := .error "no upstream",
                 getUncommitted := .error "status failed", getUnpushed := .ok 4,
                 getUnpulled := .ok 4,
                 getLastCommit := .error "empty" }).1.unpulled = 0 :=
  repo_never_dropped _ _ "/r/alpha" _ "main" "no upstream" "status failed"
    rfl rfl rfl

/-! ### Helper lemmas and demonstration states for the screen claims -/

theorem single_key_ne (c : Char) (t : String) (h : t.length ≠ 1) :
    String.mk [c] ≠ t := by
  intro he
  exact h ((congrArg String.length he).symm)

theorem handleFilterInput_preserves_ready (s : ProjectsListScreen)
    (k : String) : (s.handleFilterInput k).1.ready = s.ready := by
  simp only [ProjectsListScreen.handleFilterInput]
  repeat' split
  all_goals rfl

theorem handleNormalInput_preserves_ready (s : ProjectsListScreen)
    (k : String) : (s.handleNormalInput k).1.ready = s.ready := by
  simp only [ProjectsListScreen.handleNormalInput]
  repeat' split
  all_goals rfl

theorem update_scanComplete_preserves_ready (s : ProjectsListScreen)
    (ps : List Project) (e : Bool) :
    (s.Update (.scanComplete ps e)).1.ready = s.ready := by
  simp only [ProjectsListScreen.Update]
  repeat' split
  all_goals rfl

theorem detail_keyPress_preserves_ready (d : ProjectDetailScreen)
    (k : String) : (d.Update (.keyPress k)).1.ready = d.ready := by
  simp only [ProjectDetailScreen.Update]
  repeat' split
  all_goals rfl

def plainTheme : Theme :=
  { title := id, subtle := id, success := id, warning := id,
    errorStyle := id, statusStyle := id, app := id, footerStyle := id }

def plainCtx : RenderCtx :=
  { theme := plainTheme, now := 0, headerView := "", renderHelp := "",
    joinVertical := String.intercalate "\n" }

def demoAlpha : Project :=
  { name := "alpha", path := "/r/alpha", language := "", size := 0,
    lastModified := 0, git := zeroGitStatus }

def demoBeta : Project :=
  { name := "beta", path := "/r/beta", language := "", size := 0,
    lastModified := 0, git := zeroGitStatus }

/-- The root screen right after `Init` started the first scan. -/
def demoInitState : ProjectsListScreen :=
  ((NewProjectsListScreen "/r" false "app").SetScanner.Init).1

/-- The state after the first scan delivered two projects. -/
def demoLoadedState : ProjectsListScreen :=
  (demoInitState.Update (.scanComplete [demoAlpha, demoBeta] false)).1

/-- Loaded state after pressing `j` (select the second row) and `/` (enter
filter mode). -/
def demoFilteringState : ProjectsListScreen :=
  ((demoLoadedState.Update (.keyPress "j")).1.Update (.keyPress "/")).1

/-- State with a scan in flight and filter mode entered during the scan. -/
def demoScanFilterState : ProjectsListScreen :=
  (demoInitState.Update (.keyPress "/")).1

/-! ### C3 -/

theorem filteredProjects_set_selectedIdx (s : ProjectsListScreen) (i : Nat) :
    ProjectsListScreen.filteredProjects { s with selectedIdx := i } =
      s.filteredProjects := rfl

/-- The clamping step at the end of the `ScanCompleteMsg` branch of
`ProjectsListScreen.Update` leaves the selection inside the bound. -/
theorem clamp_step (t : ProjectsListScreen) :
    (if t.selectedIdx ≥ t.filteredProjects.length then
       { t with selectedIdx := max 0 (t.filteredProjects.length - 1) }
     else t).selectedIdx ≤
      max 0 ((if t.selectedIdx ≥ t.filteredProjects.length then
          { t with selectedIdx := max 0 (t.filteredProjects.length - 1) }
        else t).filteredProjects.length - 1) := by
  split
  · simp [filteredProjects_set_selectedIdx]
  · rename_i h
    simp only [not_le] at h
    omega

/-- C3 counterexample: from a reachable project-list state (scan delivered
`alpha` and `beta`, second row selected, filter mode entered), typing the
filter character `x` empties the filtered list but leaves
`selectedIndex = 1`, outside `[0, max(0, len(filtered)-1)] = [0, 0]` — so
the claimed invariant is not preserved by every Update. -/
theorem selection_invariant_counterexample :
    (demoFilteringState.Update (.keyPress "x")).1.selectedIdx = 1 ∧
    (demoFilteringState.Update (.keyPress "x")).1.filteredProjects.length = 0 ∧
    ¬ ((demoFilteringState.Update (.keyPress "x")).1.selectedIdx ≤
        max 0 ((demoFilteringState.Update
          (.keyPress "x")).1.filteredProjects.length - 1)) := by
  decide

/-- C3 amended: `selectedIndex` is clamped into
`[0, max(0, len(filteredProjects)-1)]` by every Update step that receives a
scan result; Update steps that edit the filter text do not re-clamp, so the
bound may be violated until the next scan result arrives. -/
theorem selectedIdx_clamped_on_scan_complete (s : ProjectsListScreen)
    (ps : List Project) (e : Bool) :
    (s.Update (.scanComplete ps e)).1.selectedIdx ≤
      max 0 ((s.Update (.scanComplete ps e)).1.filteredProjects.length - 1) :=
  clamp_step { s with scanning := false, projects := if e then [] else ps }

/-! ### C7 -/

/-- C7: while `ready` is still false — which holds in the freshly constructed
screens, whose `width` and `height` are zero, and is preserved by every
Update step that is not a window-size message — `View` returns exactly the
literal string "Loading..." on both the project-list and the project-detail
screen (and, the embedding being total, no crash is possible). -/
theorem view_loading_until_sized (ctx : RenderCtx) (s : ProjectsListScreen)
    (d : ProjectDetailScreen) (k : String) (ps : List Project) (e : Bool)
    (dir an : String) (dark : Bool) (pr : Project)
    (hs : s.ready = false) (hd : d.ready = false) :
    ProjectsListScreen.View ctx s = "Loading..." ∧
    ProjectDetailScreen.View ctx d = "Loading..." ∧
    (NewProjectsListScreen dir dark an).ready = false ∧
    (NewProjectsListScreen dir dark an).width = 0 ∧
    (NewProjectsListScreen dir dark an).height = 0 ∧
    (NewProjectDetailScreen pr dark an).ready = false ∧
    (NewProjectDetailScreen pr dark an).width = 0 ∧
    (NewProjectDetailScreen pr dark an).height = 0 ∧
    (s.Update (.keyPress k)).1.ready = false ∧
    (s.Update (.scanComplete ps e)).1.ready = false ∧
    (d.Update (.keyPress k)).1.ready = false := by
  refine ⟨?_, ?_, rfl, rfl, rfl, rfl, rfl, rfl, ?_, ?_, ?_⟩
  · simp [ProjectsListScreen.View, hs]
  · simp [ProjectDetailScreen.View, hd]
  · simp only [ProjectsListScreen.Update]
    split
    · exact (handleFilterInput_preserves_ready s k).trans hs
    · exact (handleNormalInput_preserves_ready s k).trans hs
  · exact (update_scanComplete_preserves_ready s ps e).trans hs
  · exact (detail_keyPress_preserves_ready d k).trans hd

/-- Witness for `view_loading_until_sized` at the freshly constructed
screens and a concrete render context. -/
theorem view_loading_until_sized_witness :
    ProjectsListScreen.View plainCtx (NewProjectsListScreen "/r" false "app") =
      "Loading..." ∧
    ProjectDetailScreen.View plainCtx
        (NewProjectDetailScreen demoAlpha false "app") = "Loading..." ∧
    (NewProjectsListScreen "/r" false "app").ready = false ∧
    (NewProjectsListScreen "/r" false "app").width = 0 ∧
    (NewProjectsListScreen "/r" false "app").height = 0 ∧
    (NewProjectDetailScreen demoAlpha false "app").ready = false ∧
    (NewProjectDetailScreen demoAlpha false "app").width = 0 ∧
    (NewProjectDetailScreen demoAlpha false "app").height = 0 ∧
    ((NewProjectsListScreen "/r" false "app").Update
        (.keyPress "j")).1.ready = false ∧
    ((NewProjectsListScreen "/r" false "app").Update
        (.scanComplete [demoAlpha] false)).1.ready = false ∧
    ((NewProjectDetailScreen demoAlpha false "app").Update
        (.keyPress "q")).1.ready = false :=
  view_loading_until_sized plainCtx (NewProjectsListScreen "/r" false "app")
    (NewProjectDetailScreen demoAlpha false "app") "j" [demoAlpha] false
    "/r" "app" false demoAlpha rfl rfl

/-! ### C8 -/

/-- C8 counterexample: in a reachable project-list state with a scan in
flight (`scanning = true`) but filter mode active, the key event `r` does
not leave the state unchanged — it appends `r` to the filter text. -/
theorem refresh_during_scan_counterexample :
    demoScanFilterState.scanning = true ∧
    (demoScanFilterState.Update (.keyPress "r")).1 ≠ demoScanFilterState := by
  decide

/-- C8 amended: for every project-list state with `scanning = true` that is
in normal (non-filter) input mode, the key event `r` returns the state
unchanged with no command; in filter mode `r` is consumed as a filter
character instead. -/
theorem refresh_noop_while_scanning (s : ProjectsListScreen)
    (hscan : s.scanning = true) (hfilt : s.filtering = false) :
    s.Update (.keyPress "r") = (s, none) := by
  simp only [ProjectsListScreen.Update, hfilt]
  simp [ProjectsListScreen.handleNormalInput, hscan]

/-- Witness for `refresh_noop_while_scanning` at the state right after
`Init` started the first scan. -/
theorem refresh_noop_while_scanning_witness :
    demoInitState.Update (.keyPress "r") = (demoInitState, none) :=
  refresh_noop_while_scanning demoInitState rfl rfl

/-! ### C9 -/

theorem filter_append_step (s : ProjectsListScreen) (c : Char)
    (hf : s.filtering = true) :
    s.Update (.keyPress (String.mk [c])) =
      ({ s with filterText := s.filterText ++ [c] }, none) := by
  simp only [ProjectsListScreen.Update]
  rw [if_pos hf, ProjectsListScreen.handleFilterInput,
    if_neg (single_key_ne c "esc" (by decide)),
    if_neg (single_key_ne c "enter" (by decide)),
    if_neg (single_key_ne c "backspace" (by decide)),
    if_pos (show (String.mk [c]).length = 1 from rfl)]

theorem filter_backspace_step (s : ProjectsListScreen)
    (hf : s.filtering = true) :
    s.Update (.keyPress "backspace") =
      (if s.filterText.length > 0 then
         { s with filterText := s.filterText.take (s.filterText.length - 1) }
       else s, none) := by
  simp only [ProjectsListScreen.Update]
  rw [if_pos hf, ProjectsListScreen.handleFilterInput,
    if_neg (by decide : ¬("backspace" : String) = "esc"),
    if_neg (by decide : ¬("backspace" : String) = "enter"),
    if_pos (show ("backspace" : String) = "backspace" from rfl)]

theorem applyKeys_chars (cs : List Char) (s : ProjectsListScreen)
    (hf : s.filtering = true) :
    applyKeys s (cs.map (fun c => String.mk [c])) =
      { s with filterText := s.filterText ++ cs } := by
  induction cs generalizing s with
  | nil => simp [applyKeys]
  | cons c cs ih =>
      simp only [List.map_cons, applyKeys, List.foldl_cons]
      have h1 : (s.Update (.keyPress (String.mk [c]))).1 =
          { s with filterText := s.filterText ++ [c] } := by
        rw [filter_append_step s c hf]
      rw [h1]
      have h2 := ih { s with filterText := s.filterText ++ [c] } hf
      simp only [applyKeys] at h2
      rw [h2]
      simp

theorem applyKeys_backspaces (n : Nat) :
    ∀ s : ProjectsListScreen, s.filtering = true →
      s.filterText.length = n →
      applyKeys s (List.replicate n "backspace") =
        { s with filterText := [] } := by
  induction n with
  | zero =>
      intro s hf hl
      rcases s with ⟨w, h, dk, an, sa, pr, si, sc, rd, pd, hsc, ft, fl⟩
      simp only [List.length_eq_zero] at hl
      subst hl
      simp [applyKeys]
  | succ n ih =>
      intro s hf hl
      simp only [List.replicate_succ, applyKeys, List.foldl_cons]
      have h1 : (s.Update (.keyPress "backspace")).1 =
          { s with filterText := s.filterText.take (s.filterText.length - 1) } := by
        rw [filter_backspace_step s hf]
        simp [hl]
      rw [h1]
      have h2 := ih { s with filterText := s.filterText.take (s.filterText.length - 1) } hf
        (by simp [hl, List.length_take])
      simp only [applyKeys] at h2
      rw [h2]

/-- C9: from a project-list state in filter mode with empty filter text,
typing any text (as single-character key events) and then pressing backspace
exactly as many times returns to `filterText = ""`, and the filtered list is
again the whole underlying project list. -/
theorem filter_text_roundtrip (s : ProjectsListScreen) (cs : List Char)
    (hf : s.filtering = true) (h0 : s.filterText = []) :
    (applyKeys s (cs.map (fun c => String.mk [c])
        ++ List.replicate cs.length "backspace")).filterText = [] ∧
    (applyKeys s (cs.map (fun c => String.mk [c])
        ++ List.replicate cs.length "backspace")).filteredProjects =
      s.projects := by
  have hsplit : applyKeys s (cs.map (fun c => String.mk [c])
      ++ List.replicate cs.length "backspace") =
      applyKeys (applyKeys s (cs.map (fun c => String.mk [c])))
        (List.replicate cs.length "backspace") := by
    simp [applyKeys, List.foldl_append]
  rw [hsplit, applyKeys_chars cs s hf]
  have hb := applyKeys_backspaces cs.length
    { s with filterText := s.filterText ++ cs } hf (by simp [h0])
  rw [hb]
  exact ⟨rfl, by simp [ProjectsListScreen.filteredProjects]⟩

/-- Witness for `filter_text_roundtrip`: typing `ab` then two backspaces on
the loaded demo state restores the full project list. -/
theorem filter_text_roundtrip_witness :
    (applyKeys ((demoLoadedState.Update (.keyPress "/")).1)
        ((['a', 'b'].map (fun c => String.mk [c]))
          ++ List.replicate (['a', 'b'] : List Char).length "backspace")).filterText = [] ∧
    (applyKeys ((demoLoadedState.Update (.keyPress "/")).1)
        ((['a', 'b'].map (fun c => String.mk [c]))
          ++ List.replicate (['a', 'b'] : List Char).length "backspace")).filteredProjects =
      ((demoLoadedState.Update (.keyPress "/")).1).projects :=
  filter_text_roundtrip ((demoLoadedState.Update (.keyPress "/")).1)
    ['a', 'b'] (by decide) (by decide)

end Projector
